import Mathlib

/-!
Shallow embedding of the hockey play-by-play reconciliation code
(`src/get_data.py`) and proofs about it.

Python strings are modelled as Lean `String` (a wrapper around `List Char`);
Python `int` as Lean `Int`; Python `None`-able values as `Option`;
Python exceptions as `Except String` or `Option` where the code can raise.
-/

namespace HockeyAnalytics

/-! ## Python string primitives -/

/-- Python slice `s[0:n]`. -/
def strTake (s : String) (n : Nat) : String :=
  String.mk (s.data.take n)

/-- Python slice `s[n:]`. -/
def strDrop (s : String) (n : Nat) : String :=
  String.mk (s.data.drop n)

/-- Helper for `pyFind`: index of first occurrence of `pat` in the list,
counting from `i`. -/
def findAux (pat : List Char) : List Char → Nat → Option Nat
  | [], i => if pat.isPrefixOf ([] : List Char) then some i else none
  | c :: t, i => if pat.isPrefixOf (c :: t) then some i else findAux pat t (i + 1)

/-- Python `s.find(pat)`: index of the first occurrence, `-1` when absent. -/
def pyFind (s pat : String) : Int :=
  match findAux pat.data s.data 0 with
  | some i => (i : Int)
  | none => -1

/-- Python `s.zfill(width)`: left-pad with `0` to `width`, keeping a
leading sign character in front of the inserted zeros. -/
def zfill (width : Nat) (s : String) : String :=
  if width ≤ s.length then s
  else
    match s.data with
    | [] => String.mk (List.replicate width '0')
    | c :: t =>
      if c = '+' ∨ c = '-' then
        String.mk (c :: (List.replicate (width - s.length) '0' ++ t))
      else
        String.mk (List.replicate (width - s.length) '0' ++ (c :: t))

/-- Helper for `pyInt`: read a nonempty all-digit list as a number. -/
def digitsToNat : List Char → Nat → Option Nat
  | [], acc => some acc
  | c :: t, acc =>
    if c.isDigit then digitsToNat t (acc * 10 + (c.toNat - 48)) else none

/-- Python `int(s)` on a whitespace-free literal: optional sign followed by
at least one digit; `none` models the `ValueError` raised otherwise. -/
def pyInt (s : String) : Option Int :=
  match s.data with
  | [] => none
  | '-' :: t => if t = [] then none else (digitsToNat t 0).map (fun n => -(n : Int))
  | '+' :: t => if t = [] then none else (digitsToNat t 0).map (fun n => (n : Int))
  | l => (digitsToNat l 0).map (fun n => (n : Int))

/-! ## Identifier codec -/

/-- The season flag set accepted by every entry point of `get_data.py`. -/
inductive Season where
  | pre
  | regular
  | post
  | allStar
deriving DecidableEq, Fintype, Repr

/-- The `season_dict` mapping flag to 2-digit code (lines 186-192). -/
def seasonCode : Season → String
  | .pre => "01"
  | .regular => "02"
  | .post => "03"
  | .allStar => "04"

/-- The reverse `season_dict` mapping code back to flag (lines 352-357);
`none` models `dict.get` returning `None` on an unknown code. -/
def seasonOfCode (c : String) : Option Season :=
  if c = "01" then some .pre
  else if c = "02" then some .regular
  else if c = "03" then some .post
  else if c = "04" then some .allStar
  else none

/-- Report-style game id (line 196):
`game_id = f'{season}{str(game_number).zfill(4)}'`. -/
def encode_report_id (season : Season) (game_number : Nat) : String :=
  seasonCode season ++ zfill 4 (Nat.repr game_number)

/-- Decoding of a report game id (lines 358-361): season flag from the
first two characters, game number from the remaining digits. -/
def decode_report_id (game_id : String) : Option (Season × Int) :=
  match seasonOfCode (strTake game_id 2), pyInt (strDrop game_id 2) with
  | some s, some n => some (s, n)
  | _, _ => none

/-! ## Event vocabulary map -/

/-- The `play_lookup` dict (lines 254-268), as the association list of
its entries in insertion order (keys are unique). -/
def play_lookup_table : List (String × String) :=
  [("FAC", "FACEOFF"), ("GIVE", "GIVEAWAY"), ("TAKE", "TAKEAWAY"),
   ("HIT", "HIT"), ("SHOT", "SHOT"), ("MISS", "MISSED_SHOT"),
   ("STOP", "STOP"), ("BLOCK", "BLOCKED_SHOT"), ("GOAL", "GOAL"),
   ("PENL", "PENALTY"), ("PEND", "PERIOD_END"), ("PSTR", "PERIOD_START"),
   ("GEND", "GAME_END")]

/-- Dict lookup as used by `Series.map(play_lookup)` (line 329); `none`
models pandas producing `NaN` for a key absent from the dict. -/
def play_lookup (code : String) : Option String :=
  (play_lookup_table.find? (fun kv => kv.1 == code)).map (fun kv => kv.2)

/-! ## Feed parser (`_parse_api_plays`, lines 61-149) -/

/-- One entry of a play's `players` list: the nested
`player.get('player')` object with its `id` and `fullName`. -/
structure Participant where
  id : Int
  fullName : String
deriving DecidableEq, Repr

/-- One element of `liveData.plays.allPlays`: the fields the parser reads.
`players` is `none` when the `players` key is absent from the play. -/
structure Play where
  eventId : Int
  eventIdx : Int
  event : Option String
  eventTypeId : Option String
  description : Option String
  x : Option Int
  y : Option Int
  period : Int
  periodTime : String
  periodTimeRemaining : Option String
  players : Option (List Participant)
deriving DecidableEq, Repr

/-- The game-level fields of the feed payload that the parser broadcasts
to every row (lines 76-85); the date is kept as the already-formatted
calendar string. -/
structure GameInfo where
  game_id : Int
  game_date : String
  away_team_id : Int
  away_team_code : String
  home_team_id : Int
  home_team_code : String
deriving DecidableEq, Repr

/-- One row of the dataframe built by `_parse_api_plays` (lines 87-108). -/
structure ApiRow where
  game_id : Int
  game_date : String
  away_team_id : Int
  away_team_code : String
  home_team_id : Int
  home_team_code : String
  event_id : Int
  event_idx : Int
  play_type : Option String
  play_type_id : Option String
  play_description_api : Option String
  play_x_coordinate : Option Int
  play_y_coordinate : Option Int
  period : Int
  time_elapsed : String
  time_remaining : Option String
  player1_id : Option Int
  player1_name : Option String
  player2_id : Option Int
  player2_name : Option String
deriving DecidableEq, Repr

/-- The per-play body of the loop in `_parse_api_plays` (lines 110-147).
`play.get('players') is None` keeps all four participant slots `None`;
otherwise `players[0]` is read unconditionally (an `IndexError` on an
empty list), and the second slot is filled only when the list has
length exactly 2 (`if len(play.get('players')) == 2`). -/
def parsePlay (g : GameInfo) (play : Play) : Except String ApiRow :=
  let mk : Option Int → Option String → Option Int → Option String → ApiRow :=
    fun p1i p1n p2i p2n =>
      { game_id := g.game_id
        game_date := g.game_date
        away_team_id := g.away_team_id
        away_team_code := g.away_team_code
        home_team_id := g.home_team_id
        home_team_code := g.home_team_code
        event_id := play.eventId
        event_idx := play.eventIdx
        play_type := play.event
        play_type_id := play.eventTypeId
        play_description_api := play.description
        play_x_coordinate := play.x
        play_y_coordinate := play.y
        period := play.period
        time_elapsed := play.periodTime
        time_remaining := play.periodTimeRemaining
        player1_id := p1i
        player1_name := p1n
        player2_id := p2i
        player2_name := p2n }
  match play.players with
  | none => .ok (mk none none none none)
  | some [] => .error "IndexError"
  | some (p1 :: rest) =>
    match rest with
    | [p2] => .ok (mk (some p1.id) (some p1.fullName) (some p2.id) (some p2.fullName))
    | _ => .ok (mk (some p1.id) (some p1.fullName) none none)

/-- `_parse_api_plays`: one row per play, in play order; the whole parse
raises if any single play raises. -/
def parse_api_plays (g : GameInfo) (plays : List Play) : Except String (List ApiRow) :=
  match plays with
  | [] => .ok []
  | p :: t =>
    match parsePlay g p, parse_api_plays g t with
    | .ok r, .ok rs => .ok (r :: rs)
    | .error e, _ => .error e
    | _, .error e => .error e

/-! ## Strength and zone derivation (lines 566-634) -/

/-- `_get_player_2_strength` (lines 566-589): structural opposite of the
strength code, with an explicit `None` default branch. -/
def get_player_2_strength (player_1_strength : String) : Option String :=
  if player_1_strength = "EV" then some "EV"
  else if player_1_strength = "PP" then some "SH"
  else if player_1_strength = "SH" then some "PP"
  else none

/-- `_get_player_1_zone` (lines 592-611): scans the description for the
three zone markers with `str.find(...) > 0`; there is no default branch,
so a description matching none of the tests reaches `return p1_zone` with
`p1_zone` unassigned, a Python `UnboundLocalError`, modelled as the
`.error` result. -/
def get_player_1_zone (play_description : String) : Except String String :=
  if pyFind play_description "Neu. Zone" > 0 then .ok "Neutral Zone"
  else if pyFind play_description "Off. Zone" > 0 then .ok "Offensive Zone"
  else if pyFind play_description "Def. Zone" > 0 then .ok "Defensive Zone"
  else .error "UnboundLocalError"

/-- `_get_player_2_zone` (lines 614-634): structural opposite of the
player-1 zone; like `_get_player_1_zone` it has no default branch. -/
def get_player_2_zone (player_1_zone : String) : Except String String :=
  if player_1_zone = "Neutral Zone" then .ok "Neutral Zone"
  else if player_1_zone = "Offensive Zone" then .ok "Defensive Zone"
  else if player_1_zone = "Defensive Zone" then .ok "Offensive Zone"
  else .error "UnboundLocalError"

/-! ## Report parser clock-cell split (lines 284-297) -/

/-- Lines 290-292: `delimiter = cell.text.find(':') + 3`;
`text_expired = cell.text[0:delimiter].zfill(5)`;
`text_remaining = cell.text[delimiter:].zfill(5)`. -/
def splitTimeCell (s : String) : String × String :=
  (zfill 5 (strTake s (pyFind s ":" + 3).toNat),
   zfill 5 (strDrop s (pyFind s ":" + 3).toNat))

/-- The operation the spec describes for the two clock halves: plain left
padding with zeros to width 5. -/
def padLeft5 (s : String) : String :=
  String.mk (List.leftpad 5 '0' s.data)

/-! ## Report parser row and reconciliation engine
(`_parse_players_on_ice` output shape, lines 228-379, and
`_combine_api_html_data`, lines 473-518) -/

/-- One row of the dataframe built by `_parse_players_on_ice`, after the
on-ice split, the strength/vocabulary columns and the roster substitution
(lines 228-379): `game_id` is still the report-native string at this
point; `play_type_id` is the vocabulary-mapped canonical name (`none`
when the short code is not in `play_lookup`); the 12 on-ice columns hold
resolved player ids or unresolved GUID strings. -/
structure HtmlRow where
  game_id : String
  event_id : String
  period : Int
  player_1_strength : String
  player_2_strength : Option String
  time_elapsed : String
  time_remaining : String
  play_type : String
  play_type_id : Option String
  play_description_html : String
  away_on_ice : String
  home_on_ice : String
  away_1 : String
  away_2 : String
  away_3 : String
  away_4 : String
  away_5 : String
  away_6 : String
  home_1 : String
  home_2 : String
  home_3 : String
  home_4 : String
  home_5 : String
  home_6 : String
deriving DecidableEq, Repr

/-- The report row after `_combine_api_html_data` recomputes its game id
(line 497: `(str(year) + html_df['game_id']).astype(int)`) and projects
to `html_cols` (lines 500-513). -/
structure HtmlProj where
  game_id : Int
  period : Int
  player_1_strength : String
  player_2_strength : Option String
  time_elapsed : String
  play_type_id : Option String
  play_description_html : String
  away_1 : String
  away_2 : String
  away_3 : String
  away_4 : String
  away_5 : String
  away_6 : String
  home_1 : String
  home_2 : String
  home_3 : String
  home_4 : String
  home_5 : String
  home_6 : String
deriving DecidableEq, Repr

/-- Per-row game-id recompute and column projection of
`_combine_api_html_data` (lines 497-513); `none` models the `ValueError`
of `astype(int)` on a non-numeric concatenation. -/
def projectHtmlRow (year : Int) (h : HtmlRow) : Option HtmlProj :=
  (pyInt (toString year ++ h.game_id)).map fun gid =>
    { game_id := gid
      period := h.period
      player_1_strength := h.player_1_strength
      player_2_strength := h.player_2_strength
      time_elapsed := h.time_elapsed
      play_type_id := h.play_type_id
      play_description_html := h.play_description_html
      away_1 := h.away_1
      away_2 := h.away_2
      away_3 := h.away_3
      away_4 := h.away_4
      away_5 := h.away_5
      away_6 := h.away_6
      home_1 := h.home_1
      home_2 := h.home_2
      home_3 := h.home_3
      home_4 := h.home_4
      home_5 := h.home_5
      home_6 := h.home_6 }

/-- Column-wise `astype` over all rows: any failing row fails the whole
conversion, like pandas. -/
def traverseOption (f : α → Option β) : List α → Option (List β)
  | [] => some []
  | a :: t =>
    match f a, traverseOption f t with
    | some b, some bs => some (b :: bs)
    | _, _ => none

/-- The `on = ['game_id', 'period', 'time_elapsed', 'play_type_id']` key
comparison of the `pd.merge` call (line 516). Pandas matches `NaN` join
keys with each other, which plain `Option` equality reproduces. -/
def keyMatch (a : ApiRow) (h : HtmlProj) : Bool :=
  a.game_id == h.game_id && a.period == h.period &&
  a.time_elapsed == h.time_elapsed && a.play_type_id == h.play_type_id

/-- Inner `pd.merge` (line 516): every pair of rows agreeing on the join
key, in left-major order, as pandas produces for an inner join. -/
def mergeInner (api : List ApiRow) (html : List HtmlProj) : List (ApiRow × HtmlProj) :=
  api.bind fun a => (html.filter fun h => keyMatch a h).map fun h => (a, h)

/-- `_combine_api_html_data` (lines 473-518): recompute the report game
id from the year, project the report columns, and inner-join with the
feed table on the four-column key. -/
def combine_api_html_data (api : List ApiRow) (html : List HtmlRow) (year : Int) :
    Option (List (ApiRow × HtmlProj)) :=
  (traverseOption (projectHtmlRow year) html).map fun hs => mergeInner api hs

/-! ## Reconciliation fixtures -/

/-- A feed row with the given event id, game id, period, elapsed time and
canonical event type; the remaining fields are fixed plausible values. -/
def mkApiRow (eid : Int) (gid : Int) (per : Int) (elapsed : String)
    (ptid : Option String) : ApiRow where
  game_id := gid
  game_date := "2017-10-04"
  away_team_id := 52
  away_team_code := "WPG"
  home_team_id := 10
  home_team_code := "TOR"
  event_id := eid
  event_idx := 2
  play_type := ptid
  play_type_id := ptid
  play_description_api := some "feed description"
  play_x_coordinate := some 0
  play_y_coordinate := some 0
  period := per
  time_elapsed := elapsed
  time_remaining := some "19:30"
  player1_id := some 8471214
  player1_name := some "Player A"
  player2_id := none
  player2_name := none

/-- A report row with the given native game id, period, elapsed time and
short code; `play_type_id` is the vocabulary lookup of the code, as the
report parser computes it. -/
def mkHtmlRow (gid : String) (per : Int) (elapsed : String)
    (ptype : String) : HtmlRow where
  game_id := gid
  event_id := "1"
  period := per
  player_1_strength := "EV"
  player_2_strength := get_player_2_strength "EV"
  time_elapsed := elapsed
  time_remaining := "19:30"
  play_type := ptype
  play_type_id := play_lookup ptype
  play_description_html := "report description"
  away_on_ice := "31 4 8 12 17 89"
  home_on_ice := "35 2 6 19 43 88"
  away_1 := "8470001"
  away_2 := "8470002"
  away_3 := "8470003"
  away_4 := "8470004"
  away_5 := "8470005"
  away_6 := "8470006"
  home_1 := "8470007"
  home_2 := "8470008"
  home_3 := "8470009"
  home_4 := "8470010"
  home_5 := "8470011"
  home_6 := "8470012"

def apiFaceoffRow : ApiRow := mkApiRow 8 1 1 "00:30" (some "FACEOFF")

def apiFaceoffRow2 : ApiRow := mkApiRow 9 1 1 "00:30" (some "FACEOFF")

def apiShotRow : ApiRow := mkApiRow 10 1 1 "00:30" (some "SHOT")

def apiStopRow : ApiRow := mkApiRow 11 1 1 "00:30" (some "STOP")

def apiNoTypeRow : ApiRow := mkApiRow 12 1 1 "00:30" none

def htmlFaceoffRow : HtmlRow := mkHtmlRow "" 1 "00:30" "FAC"

def htmlShotRow : HtmlRow := mkHtmlRow "" 1 "00:30" "SHOT"

def htmlStopRow : HtmlRow := mkHtmlRow "" 1 "00:30" "STOP"

def htmlChlRow : HtmlRow := mkHtmlRow "" 1 "00:30" "CHL"

/-- The projection of `htmlFaceoffRow` at year 1. -/
def projFaceoff : HtmlProj where
  game_id := 1
  period := 1
  player_1_strength := "EV"
  player_2_strength := get_player_2_strength "EV"
  time_elapsed := "00:30"
  play_type_id := play_lookup "FAC"
  play_description_html := "report description"
  away_1 := "8470001"
  away_2 := "8470002"
  away_3 := "8470003"
  away_4 := "8470004"
  away_5 := "8470005"
  away_6 := "8470006"
  home_1 := "8470007"
  home_2 := "8470008"
  home_3 := "8470009"
  home_4 := "8470010"
  home_5 := "8470011"
  home_6 := "8470012"

/-! ## Feed parser fixtures -/

/-- A concrete game header for evaluating the feed parser. -/
def sampleGame : GameInfo where
  game_id := 2017020001
  game_date := "2017-10-04"
  away_team_id := 52
  away_team_code := "WPG"
  home_team_id := 10
  home_team_code := "TOR"

/-- A concrete play whose participant list is the given value. -/
def samplePlay (ps : Option (List Participant)) : Play where
  eventId := 8
  eventIdx := 2
  event := some "Faceoff"
  eventTypeId := some "FACEOFF"
  description := some "Faceoff won"
  x := some 0
  y := some 0
  period := 1
  periodTime := "00:00"
  periodTimeRemaining := some "20:00"
  players := ps

/-- Concrete participants. -/
def partA : Participant where
  id := 8471214
  fullName := "Player A"

def partB : Participant where
  id := 8474141
  fullName := "Player B"

def partC : Participant where
  id := 8477492
  fullName := "Player C"

/-! ## Supporting lemmas -/

lemma zfill_eq_leftpad (w : Nat) (s : String)
    (h : ∀ c ∈ s.data, c ≠ '+' ∧ c ≠ '-') :
    zfill w s = String.mk (List.leftpad w '0' s.data) := by
  obtain ⟨l⟩ := s
  unfold zfill
  split
  · next hle =>
      have hz : w - l.length = 0 :=
        Nat.sub_eq_zero_of_le (by simpa [String.length] using hle)
      show String.mk l = String.mk (List.leftpad w '0' l)
      unfold List.leftpad
      rw [hz]
      simp
  · next hgt =>
      rcases l with _ | ⟨c, t⟩
      · dsimp only
        show String.mk (List.replicate w '0') = String.mk (List.leftpad w '0' [])
        simp [List.leftpad]
      · dsimp only
        have hc := h c (by simp)
        rw [if_neg (by tauto)]
        rfl

/-! ## Reconciliation lemmas -/

lemma traverseOption_mem_iff {α β : Type} {f : α → Option β} :
    ∀ {l : List α} {res : List β}, traverseOption f l = some res →
      ∀ b : β, (b ∈ res ↔ ∃ a ∈ l, f a = some b) := by
  intro l
  induction l with
  | nil =>
    intro res h b
    unfold traverseOption at h
    cases h
    simp
  | cons a t ih =>
    intro res h b
    unfold traverseOption at h
    rcases hfa : f a with _ | fb
    · rw [hfa] at h
      simp at h
    · rw [hfa] at h
      rcases htr : traverseOption f t with _ | bs
      · rw [htr] at h
        simp at h
      · rw [htr] at h
        simp at h
        subst h
        simp only [List.mem_cons]
        constructor
        · rintro (rfl | hb)
          · exact ⟨a, Or.inl rfl, hfa⟩
          · obtain ⟨x, hx, hfx⟩ := (ih htr b).mp hb
            exact ⟨x, Or.inr hx, hfx⟩
        · rintro ⟨x, rfl | hx, hfx⟩
          · rw [hfa] at hfx
            cases hfx
            exact Or.inl rfl
          · exact Or.inr ((ih htr b).mpr ⟨x, hx, hfx⟩)

lemma mem_mergeInner {api : List ApiRow} {html : List HtmlProj}
    {a : ApiRow} {p : HtmlProj} :
    (a, p) ∈ mergeInner api html ↔ a ∈ api ∧ p ∈ html ∧ keyMatch a p = true := by
  unfold mergeInner
  simp only [List.mem_bind, List.mem_map, List.mem_filter, Prod.mk.injEq]
  constructor
  · rintro ⟨x, hx, y, ⟨hy, hk⟩, rfl, rfl⟩
    exact ⟨hx, hy, hk⟩
  · rintro ⟨ha, hp, hk⟩
    exact ⟨a, ha, p, ⟨hp, hk⟩, rfl, rfl⟩

lemma keyMatch_iff (a : ApiRow) (p : HtmlProj) :
    keyMatch a p = true ↔
      a.game_id = p.game_id ∧ a.period = p.period ∧
      a.time_elapsed = p.time_elapsed ∧ a.play_type_id = p.play_type_id := by
  unfold keyMatch
  simp [Bool.and_eq_true, and_assoc]

lemma projectHtmlRow_play_type_id {year : Int} {h : HtmlRow} {p : HtmlProj}
    (hp : projectHtmlRow year h = some p) : p.play_type_id = h.play_type_id := by
  unfold projectHtmlRow at hp
  rcases hpy : pyInt (toString year ++ h.game_id) with _ | gid
  · rw [hpy] at hp
    simp at hp
  · rw [hpy] at hp
    simp at hp
    rw [← hp]

lemma play_lookup_range (c : String) :
    play_lookup c ≠ some "GAME_SCHEDULED" ∧ play_lookup c ≠ some "PERIOD_READY" ∧
    play_lookup c ≠ some "PERIOD_OFFICIAL" := by
  unfold play_lookup
  rcases hf : play_lookup_table.find? (fun kv => kv.1 == c) with _ | kv
  · exact ⟨by simp [hf], by simp [hf], by simp [hf]⟩
  · have hmem := List.mem_of_find?_eq_some hf
    have hkv : kv.2 ∈ (["FACEOFF", "GIVEAWAY", "TAKEAWAY", "HIT", "SHOT",
        "MISSED_SHOT", "STOP", "BLOCKED_SHOT", "GOAL", "PENALTY",
        "PERIOD_END", "PERIOD_START", "GAME_END"] : List String) := by
      revert hmem
      unfold play_lookup_table
      intro hmem
      simp only [List.mem_cons, List.not_mem_nil, or_false] at hmem
      rcases hmem with rfl | rfl | rfl | rfl | rfl | rfl | rfl | rfl | rfl | rfl | rfl | rfl | rfl <;>
        decide
    refine ⟨?_, ?_, ?_⟩ <;>
      · intro hx
        simp only [hf, Option.map_some', Option.some.injEq] at hx
        rw [hx] at hkv
        exact absurd hkv (by decide)

lemma play_lookup_of_not_mem (c : String)
    (hc : c ∉ (["FAC", "GIVE", "TAKE", "HIT", "SHOT", "MISS", "STOP",
      "BLOCK", "GOAL", "PENL", "PEND", "PSTR", "GEND"] : List String)) :
    play_lookup c = none := by
  simp only [List.mem_cons, not_or, List.not_mem_nil, not_false_iff, and_true] at hc
  obtain ⟨h1, h2, h3, h4, h5, h6, h7, h8, h9, h10, h11, h12, h13⟩ := hc
  unfold play_lookup
  rw [List.find?_eq_none.mpr]
  · rfl
  · intro kv hkv
    revert hkv
    unfold play_lookup_table
    intro hkv
    simp only [List.mem_cons, List.not_mem_nil, or_false] at hkv
    rcases hkv with rfl | rfl | rfl | rfl | rfl | rfl | rfl | rfl | rfl | rfl | rfl | rfl | rfl <;>
      simp only [beq_iff_eq] <;>
      first
        | exact fun hx => h1 hx.symm
        | exact fun hx => h2 hx.symm
        | exact fun hx => h3 hx.symm
        | exact fun hx => h4 hx.symm
        | exact fun hx => h5 hx.symm
        | exact fun hx => h6 hx.symm
        | exact fun hx => h7 hx.symm
        | exact fun hx => h8 hx.symm
        | exact fun hx => h9 hx.symm
        | exact fun hx => h10 hx.symm
        | exact fun hx => h11 hx.symm
        | exact fun hx => h12 hx.symm
        | exact fun hx => h13 hx.symm

lemma mem_combine_iff (api : List ApiRow) (html : List HtmlRow) (year : Int)
    (out : List (ApiRow × HtmlProj))
    (hout : combine_api_html_data api html year = some out)
    (a : ApiRow) (p : HtmlProj) :
    (a, p) ∈ out ↔
      a ∈ api ∧ (∃ h ∈ html, projectHtmlRow year h = some p) ∧
      a.game_id = p.game_id ∧ a.period = p.period ∧
      a.time_elapsed = p.time_elapsed ∧ a.play_type_id = p.play_type_id := by
  unfold combine_api_html_data at hout
  rcases htr : traverseOption (projectHtmlRow year) html with _ | hs
  · rw [htr] at hout
    simp at hout
  · rw [htr] at hout
    simp only [Option.map_some', Option.some.injEq] at hout
    subst hout
    rw [mem_mergeInner, keyMatch_iff, traverseOption_mem_iff htr p]

/-! ## Lemmas: identifier codec round-trip -/

lemma strTake_append (a b : String) : strTake (a ++ b) a.length = a := by
  obtain ⟨la⟩ := a
  obtain ⟨lb⟩ := b
  show String.mk ((la ++ lb).take la.length) = String.mk la
  rw [List.take_left]

lemma strDrop_append (a b : String) : strDrop (a ++ b) a.length = b := by
  obtain ⟨la⟩ := a
  obtain ⟨lb⟩ := b
  show String.mk ((la ++ lb).drop la.length) = String.mk lb
  rw [List.drop_left]

lemma seasonCode_length (s : Season) : (seasonCode s).length = 2 := by
  cases s <;> rfl

lemma seasonOfCode_seasonCode (s : Season) : seasonOfCode (seasonCode s) = some s := by
  cases s <;> decide

set_option maxRecDepth 40000 in
lemma pyInt_zfill_chunk0 : ∀ m : Fin 219,
    pyInt (zfill 4 (Nat.repr (219 * 0 + m.val))) = some ((219 * 0 + m.val : Nat) : Int) := by
  decide

set_option maxRecDepth 40000 in
lemma pyInt_zfill_chunk1 : ∀ m : Fin 219,
    pyInt (zfill 4 (Nat.repr (219 * 1 + m.val))) = some ((219 * 1 + m.val : Nat) : Int) := by
  decide

set_option maxRecDepth 40000 in
lemma pyInt_zfill_chunk2 : ∀ m : Fin 219,
    pyInt (zfill 4 (Nat.repr (219 * 2 + m.val))) = some ((219 * 2 + m.val : Nat) : Int) := by
  decide

set_option maxRecDepth 40000 in
lemma pyInt_zfill_chunk3 : ∀ m : Fin 219,
    pyInt (zfill 4 (Nat.repr (219 * 3 + m.val))) = some ((219 * 3 + m.val : Nat) : Int) := by
  decide

set_option maxRecDepth 40000 in
lemma pyInt_zfill_chunk4 : ∀ m : Fin 219,
    pyInt (zfill 4 (Nat.repr (219 * 4 + m.val))) = some ((219 * 4 + m.val : Nat) : Int) := by
  decide

set_option maxRecDepth 40000 in
lemma pyInt_zfill_chunk5 : ∀ m : Fin 219,
    pyInt (zfill 4 (Nat.repr (219 * 5 + m.val))) = some ((219 * 5 + m.val : Nat) : Int) := by
  decide

lemma pyInt_zfill_repr (n : Nat) (hn : n < 1314) :
    pyInt (zfill 4 (Nat.repr n)) = some (n : Int) := by
  obtain ⟨k, r, hk, hr, rfl⟩ : ∃ k r, k < 6 ∧ r < 219 ∧ n = 219 * k + r :=
    ⟨n / 219, n % 219, by omega, by omega, by omega⟩
  interval_cases k
  · exact pyInt_zfill_chunk0 ⟨r, hr⟩
  · exact pyInt_zfill_chunk1 ⟨r, hr⟩
  · exact pyInt_zfill_chunk2 ⟨r, hr⟩
  · exact pyInt_zfill_chunk3 ⟨r, hr⟩
  · exact pyInt_zfill_chunk4 ⟨r, hr⟩
  · exact pyInt_zfill_chunk5 ⟨r, hr⟩

/-! ## Zone and clock theorems (claims C4, C8, C10) -/

/-- Claim C4, code evaluation at the failing input: a faceoff description
containing none of the three zone markers makes `_get_player_1_zone` fall
through every branch and raise `UnboundLocalError` instead of returning
an absent zone value. -/
theorem get_player_1_zone_no_marker_raises :
    get_player_1_zone "Faceoff won by TOR against BOS" = .error "UnboundLocalError" := by
  rfl

/-- Claim C10: when every zone marker present in the description occurs
only starting at character index 0 (its `find` result is 0, and no marker
has a strictly positive first occurrence), no branch of
`_get_player_1_zone` fires, because a match must have `find(...) > 0` to
count; the computation falls through to the no-marker outcome. -/
theorem get_player_1_zone_index_zero_not_recognized (d : String)
    (hN : pyFind d "Neu. Zone" ≤ 0) (hO : pyFind d "Off. Zone" ≤ 0)
    (hD : pyFind d "Def. Zone" ≤ 0)
    (hocc : pyFind d "Neu. Zone" = 0 ∨ pyFind d "Off. Zone" = 0 ∨ pyFind d "Def. Zone" = 0) :
    get_player_1_zone d = .error "UnboundLocalError" := by
  unfold get_player_1_zone
  rw [if_neg (by omega), if_neg (by omega), if_neg (by omega)]

/-- Concrete instance of the C10 theorem: a description that starts with
a zone marker. -/
theorem get_player_1_zone_index_zero_witness :
    get_player_1_zone "Neu. Zone faceoff won by TOR" = .error "UnboundLocalError" :=
  get_player_1_zone_index_zero_not_recognized "Neu. Zone faceoff won by TOR"
    (by decide) (by decide) (by decide) (Or.inl (by decide))

/-- Claim C8: for a merged clock cell whose first `:` is at index `i`
(and which, like every clock cell, contains no sign characters), the
report parser splits it into characters `[0, i+3)` and `[i+3, end)`,
each left-padded with zeros to width 5. -/
theorem splitTimeCell_pads_halves (s : String) (i : Nat)
    (hfind : pyFind s ":" = (i : Int))
    (hsign : ∀ c ∈ s.data, c ≠ '+' ∧ c ≠ '-') :
    splitTimeCell s = (padLeft5 (strTake s (i + 3)), padLeft5 (strDrop s (i + 3))) := by
  unfold splitTimeCell padLeft5
  rw [hfind]
  have h3 : ((i : Int) + 3).toNat = i + 3 := by omega
  rw [h3]
  have hT : ∀ c ∈ (strTake s (i + 3)).data, c ≠ '+' ∧ c ≠ '-' := by
    intro c hc
    exact hsign c (List.take_subset _ _ hc)
  have hD : ∀ c ∈ (strDrop s (i + 3)).data, c ≠ '+' ∧ c ≠ '-' := by
    intro c hc
    exact hsign c (List.drop_subset _ _ hc)
  rw [zfill_eq_leftpad 5 _ hT, zfill_eq_leftpad 5 _ hD]

/-- Concrete instance of the C8 theorem: the cell `12:345:00` splits into
elapsed `12:34` and remaining `5:00`, padded to `05:00`; both halves are
exactly 5 characters. -/
theorem splitTimeCell_pads_halves_witness :
    splitTimeCell "12:345:00"
      = (padLeft5 (strTake "12:345:00" (2 + 3)), padLeft5 (strDrop "12:345:00" (2 + 3)))
    ∧ splitTimeCell "12:345:00" = ("12:34", "05:00")
    ∧ (splitTimeCell "12:345:00").1.length = 5 ∧ (splitTimeCell "12:345:00").2.length = 5 :=
  ⟨splitTimeCell_pads_halves "12:345:00" 2 (by decide) (by decide),
   by decide, by decide, by decide⟩

/-! ## Reconciliation theorems (claims C1, C2, C3, C7) -/

/-- Claim C1, counterexample: the engine applies no event-type filter, so
a STOP event present in both sources with matching keys survives into the
merged output; the first conjunct checks the report row carries the
vocabulary-mapped type, as the report parser produces it. -/
theorem combine_keeps_stop_rows :
    htmlStopRow.play_type_id = play_lookup htmlStopRow.play_type ∧
    (combine_api_html_data [apiStopRow] [htmlStopRow] 1).map
      (fun out => out.map (fun r => r.1.play_type_id)) = some [some "STOP"] :=
  ⟨rfl, by decide⟩

/-- Claim C1, amended: no filtering happens, but the three canonical
types outside the vocabulary map's range (GAME_SCHEDULED, PERIOD_READY,
PERIOD_OFFICIAL) can never appear in merged output, because a
report-parsed row's type is always a vocabulary-map result and the join
key includes the type; the five mapped types PERIOD_START, PERIOD_END,
GAME_END, PENALTY and STOP can survive (see the counterexample). -/
theorem combine_excludes_unmappable_types (api : List ApiRow) (html : List HtmlRow)
    (year : Int) (out : List (ApiRow × HtmlProj))
    (hhtml : ∀ h ∈ html, h.play_type_id = play_lookup h.play_type)
    (hout : combine_api_html_data api html year = some out) :
    ∀ r ∈ out, r.1.play_type_id ≠ some "GAME_SCHEDULED" ∧
      r.1.play_type_id ≠ some "PERIOD_READY" ∧
      r.1.play_type_id ≠ some "PERIOD_OFFICIAL" := by
  intro r hr
  obtain ⟨a, p⟩ := r
  unfold combine_api_html_data at hout
  rcases htr : traverseOption (projectHtmlRow year) html with _ | hs
  · rw [htr] at hout
    simp at hout
  · rw [htr] at hout
    simp only [Option.map_some', Option.some.injEq] at hout
    subst hout
    rw [mem_mergeInner] at hr
    obtain ⟨ha, hp, hk⟩ := hr
    obtain ⟨h, hhm, hproj⟩ := (traverseOption_mem_iff htr p).mp hp
    have h1 : a.play_type_id = p.play_type_id := ((keyMatch_iff a p).mp hk).2.2.2
    dsimp only
    rw [h1, projectHtmlRow_play_type_id hproj, hhtml h hhm]
    exact play_lookup_range h.play_type

/-- Concrete instance of the amended C1 theorem. -/
theorem combine_excludes_unmappable_types_witness :
    ∃ out, combine_api_html_data [apiStopRow] [htmlStopRow] 1 = some out ∧
      ∀ r ∈ out, r.1.play_type_id ≠ some "GAME_SCHEDULED" ∧
        r.1.play_type_id ≠ some "PERIOD_READY" ∧
        r.1.play_type_id ≠ some "PERIOD_OFFICIAL" := by
  rcases hc : combine_api_html_data [apiStopRow] [htmlStopRow] 1 with _ | out
  · exact absurd hc (by decide)
  · exact ⟨out, rfl,
      combine_excludes_unmappable_types [apiStopRow] [htmlStopRow] 1 out (by decide) hc⟩

/-- Claim C2, counterexample: a feed row and a report row that agree on
(game id, period, time-elapsed) but differ in canonical event type do
not join — the merge is on four columns, `play_type_id` included, not on
the three-column key the claim states. -/
theorem combine_three_key_agreement_no_join :
    apiFaceoffRow.game_id = 1 ∧ apiFaceoffRow.period = 1 ∧
    apiFaceoffRow.time_elapsed = "00:30" ∧
    (projectHtmlRow 1 htmlShotRow).map (fun p => (p.game_id, p.period, p.time_elapsed))
      = some (1, 1, "00:30") ∧
    combine_api_html_data [apiFaceoffRow] [htmlShotRow] 1 = some [] :=
  ⟨rfl, rfl, rfl, by decide, by decide⟩

/-- Claim C2, amended: the join key of the merge is exactly the four
columns (game id, period, time-elapsed, canonical event type); event id
is not part of the key. Membership in the merged output is equivalent to
membership of both rows in their tables plus equality on those four
columns. -/
theorem combine_join_key (api : List ApiRow) (html : List HtmlRow) (year : Int)
    (out : List (ApiRow × HtmlProj))
    (hout : combine_api_html_data api html year = some out)
    (a : ApiRow) (p : HtmlProj) :
    (a, p) ∈ out ↔
      a ∈ api ∧ (∃ h ∈ html, projectHtmlRow year h = some p) ∧
      a.game_id = p.game_id ∧ a.period = p.period ∧
      a.time_elapsed = p.time_elapsed ∧ a.play_type_id = p.play_type_id :=
  mem_combine_iff api html year out hout a p

/-- Concrete instance of the amended C2 theorem. -/
theorem combine_join_key_witness :
    ∃ out, combine_api_html_data [apiFaceoffRow] [htmlFaceoffRow] 1 = some out ∧
      ((apiFaceoffRow, projFaceoff) ∈ out ↔
        apiFaceoffRow ∈ [apiFaceoffRow] ∧
        (∃ h ∈ [htmlFaceoffRow], projectHtmlRow 1 h = some projFaceoff) ∧
        apiFaceoffRow.game_id = projFaceoff.game_id ∧
        apiFaceoffRow.period = projFaceoff.period ∧
        apiFaceoffRow.time_elapsed = projFaceoff.time_elapsed ∧
        apiFaceoffRow.play_type_id = projFaceoff.play_type_id) := by
  rcases hc : combine_api_html_data [apiFaceoffRow] [htmlFaceoffRow] 1 with _ | out
  · exact absurd hc (by decide)
  · exact ⟨out, rfl, combine_join_key [apiFaceoffRow] [htmlFaceoffRow] 1 out hc apiFaceoffRow projFaceoff⟩

/-- Claim C3, counterexample: two feed rows sharing the three-column key
(1, 1, 00:30) against one report row with that key produce one merged
row, not two, because the actual join key also contains the event type
and only one feed row matches on it. -/
theorem combine_duplicate_keys_not_expanded :
    apiFaceoffRow.game_id = 1 ∧ apiFaceoffRow.period = 1 ∧
    apiFaceoffRow.time_elapsed = "00:30" ∧
    apiShotRow.game_id = 1 ∧ apiShotRow.period = 1 ∧
    apiShotRow.time_elapsed = "00:30" ∧
    (projectHtmlRow 1 htmlFaceoffRow).map (fun p => (p.game_id, p.period, p.time_elapsed))
      = some (1, 1, "00:30") ∧
    (combine_api_html_data [apiFaceoffRow, apiShotRow] [htmlFaceoffRow] 1).map
      List.length = some 1 :=
  ⟨rfl, rfl, rfl, rfl, rfl, rfl, by decide, by decide⟩

/-- Claim C3, amended: when the two feed rows with key (1, 1, 00:30)
also agree with the report row on the canonical event type — i.e. share
the full four-column join key — the single report row is matched by
both, and the merged output reproduces the duplicate expansion with
exactly 2 rows. -/
theorem combine_duplicate_expansion (a1 a2 : ApiRow) (h : HtmlRow) (year : Int)
    (p : HtmlProj)
    (hk1 : a1.game_id = 1 ∧ a1.period = 1 ∧ a1.time_elapsed = "00:30")
    (hk2 : a2.game_id = 1 ∧ a2.period = 1 ∧ a2.time_elapsed = "00:30")
    (hproj : projectHtmlRow year h = some p)
    (hm1 : keyMatch a1 p = true) (hm2 : keyMatch a2 p = true) :
    combine_api_html_data [a1, a2] [h] year = some [(a1, p), (a2, p)] := by
  unfold combine_api_html_data
  have ht : traverseOption (projectHtmlRow year) [h] = some [p] := by
    simp [traverseOption, hproj]
  rw [ht]
  simp only [Option.map_some', Option.some.injEq]
  unfold mergeInner
  simp [List.filter, hm1, hm2]

/-- Concrete instance of the amended C3 theorem. -/
theorem combine_duplicate_expansion_witness :
    combine_api_html_data [apiFaceoffRow, apiFaceoffRow2] [htmlFaceoffRow] 1
      = some [(apiFaceoffRow, projFaceoff), (apiFaceoffRow2, projFaceoff)] :=
  combine_duplicate_expansion apiFaceoffRow apiFaceoffRow2 htmlFaceoffRow 1 projFaceoff
    ⟨rfl, rfl, rfl⟩ ⟨rfl, rfl, rfl⟩ (by decide) (by decide) (by decide)

/-- Claim C7, counterexample: a report row with the unknown code CHL maps
to an absent type, and pandas matches absent (`NaN`) join keys with each
other, so it does join a feed row whose event type is likewise absent —
unmapped rows are not unconditionally excluded from the join. -/
theorem unmapped_code_joins_absent_type :
    play_lookup "CHL" = none ∧ htmlChlRow.play_type_id = none ∧
    apiNoTypeRow.play_type_id = none ∧
    (combine_api_html_data [apiNoTypeRow] [htmlChlRow] 1).map List.length = some 1 :=
  ⟨by decide, by decide, rfl, by decide⟩

/-- Claim C7, amended: the vocabulary lookup is a pure total function —
each of the 13 table entries maps to its canonical name and every other
code yields an absent result, never an exception — and an unmapped
report row can only join a feed row whose event type is also absent;
it never matches a feed row with a present event type. -/
theorem play_lookup_total_and_unmapped_join :
    (∀ kv ∈ play_lookup_table, play_lookup kv.1 = some kv.2) ∧
    (∀ c, c ∉ (["FAC", "GIVE", "TAKE", "HIT", "SHOT", "MISS", "STOP",
        "BLOCK", "GOAL", "PENL", "PEND", "PSTR", "GEND"] : List String) →
      play_lookup c = none) ∧
    (∀ (api : List ApiRow) (html : List HtmlRow) (year : Int)
        (out : List (ApiRow × HtmlProj)),
      combine_api_html_data api html year = some out →
      ∀ r ∈ out, r.2.play_type_id = none → r.1.play_type_id = none) := by
  refine ⟨by decide, play_lookup_of_not_mem, ?_⟩
  intro api html year out hout r hr hnone
  obtain ⟨a, p⟩ := r
  have hiff := mem_combine_iff api html year out hout a p
  rw [hiff] at hr
  obtain ⟨-, -, -, -, -, hk4⟩ := hr
  dsimp only at hnone ⊢
  rw [hk4]
  exact hnone

/-- Concrete instance of the C7 amended theorem. -/
theorem play_lookup_total_and_unmapped_join_witness :
    ∃ out, combine_api_html_data [apiNoTypeRow] [htmlChlRow] 1 = some out ∧
      (∀ r ∈ out, r.2.play_type_id = none → r.1.play_type_id = none) ∧
      play_lookup "FAC" = some "FACEOFF" ∧ play_lookup "XYZ" = none := by
  rcases hc : combine_api_html_data [apiNoTypeRow] [htmlChlRow] 1 with _ | out
  · exact absurd hc (by decide)
  · exact ⟨out, rfl,
      play_lookup_total_and_unmapped_join.2.2 [apiNoTypeRow] [htmlChlRow] 1 out hc,
      play_lookup_total_and_unmapped_join.1 ("FAC", "FACEOFF") (by decide),
      play_lookup_total_and_unmapped_join.2.1 "XYZ" (by decide)⟩

/-! ## Feed parser theorems (claims C6 and C9) -/

/-- Claim C6, counterexample: a play whose `players` key is present but
holds an empty list makes `_parse_api_plays` evaluate `players[0]` on an
empty list, an `IndexError`; so the parser does not produce a row for
every play of the feed payload. -/
theorem parse_api_plays_empty_list_raises :
    parse_api_plays sampleGame [samplePlay (some [])] = .error "IndexError" := by
  rfl

/-- Claim C6, amended: for every play whose participant list is not an
explicitly present empty list, the feed parser produces a row; an absent
`players` key yields all four participant slots absent, and a
one-participant list populates participant 1 and leaves participant 2
absent. -/
theorem parsePlay_participant_slots (g : GameInfo) (play : Play)
    (h : play.players ≠ some []) :
    ∃ r, parsePlay g play = .ok r ∧
      (play.players = none →
        r.player1_id = none ∧ r.player1_name = none ∧
        r.player2_id = none ∧ r.player2_name = none) ∧
      (∀ p, play.players = some [p] →
        r.player1_id = some p.id ∧ r.player1_name = some p.fullName ∧
        r.player2_id = none ∧ r.player2_name = none) := by
  obtain ⟨eid, eidx, ev, evt, desc, px, py, per, pt, ptr, players⟩ := play
  rcases players with _ | l
  · refine ⟨_, rfl, ?_, ?_⟩
    · exact fun _ => ⟨rfl, rfl, rfl, rfl⟩
    · intro p hp
      simp at hp
  · rcases l with _ | ⟨p1, rest⟩
    · exact absurd rfl h
    · rcases rest with _ | ⟨p2, rest2⟩
      · refine ⟨_, rfl, ?_, ?_⟩
        · intro hp
          simp at hp
        · intro p hp
          have hps : p1 = p := by simpa using hp
          subst hps
          exact ⟨rfl, rfl, rfl, rfl⟩
      · rcases rest2 with _ | ⟨p3, rest3⟩
        · refine ⟨_, rfl, ?_, ?_⟩
          · intro hp
            simp at hp
          · intro p hp
            simp at hp
        · refine ⟨_, rfl, ?_, ?_⟩
          · intro hp
            simp at hp
          · intro p hp
            simp at hp

/-- Concrete instance of the amended C6 theorem at a one-participant play. -/
theorem parsePlay_participant_slots_witness :
    ∃ r, parsePlay sampleGame (samplePlay (some [partA])) = .ok r ∧
      ((samplePlay (some [partA])).players = none →
        r.player1_id = none ∧ r.player1_name = none ∧
        r.player2_id = none ∧ r.player2_name = none) ∧
      (∀ p, (samplePlay (some [partA])).players = some [p] →
        r.player1_id = some p.id ∧ r.player1_name = some p.fullName ∧
        r.player2_id = none ∧ r.player2_name = none) :=
  parsePlay_participant_slots sampleGame (samplePlay (some [partA])) (by simp [samplePlay])

/-- Claim C9: a play whose participant list has three or more entries
populates participant 1 from the first entry and leaves both
participant-2 slots absent (only a list of length exactly 2 fills them). -/
theorem parsePlay_three_or_more_participants (g : GameInfo) (play : Play)
    (l : List Participant) (hp : play.players = some l) (hlen : 3 ≤ l.length) :
    ∃ r p1 rest, l = p1 :: rest ∧ parsePlay g play = .ok r ∧
      r.player1_id = some p1.id ∧ r.player1_name = some p1.fullName ∧
      r.player2_id = none ∧ r.player2_name = none := by
  obtain ⟨eid, eidx, ev, evt, desc, px, py, per, pt, ptr, players⟩ := play
  rcases l with _ | ⟨p1, _ | ⟨p2, _ | ⟨p3, rest⟩⟩⟩
  · simp at hlen
  · simp at hlen
  · simp at hlen
  · subst hp
    exact ⟨_, p1, p2 :: p3 :: rest, rfl, rfl, rfl, rfl, rfl, rfl⟩

/-- Concrete instance of the C9 theorem at a three-participant play. -/
theorem parsePlay_three_or_more_participants_witness :
    ∃ r p1 rest, ([partA, partB, partC] : List Participant) = p1 :: rest ∧
      parsePlay sampleGame (samplePlay (some [partA, partB, partC])) = .ok r ∧
      r.player1_id = some p1.id ∧ r.player1_name = some p1.fullName ∧
      r.player2_id = none ∧ r.player2_name = none :=
  parsePlay_three_or_more_participants sampleGame (samplePlay (some [partA, partB, partC]))
    [partA, partB, partC] rfl (by simp)

/-- Claim C5: for every season flag and every game number in `[0, 1313]`,
decoding the report id produced by encoding the pair (season code from the
first two characters, game number from the remaining digits) returns the
original pair. -/
theorem decode_encode_report_id (season : Season) (n : Nat) (hn : n ≤ 1313) :
    decode_report_id (encode_report_id season n) = some (season, (n : Int)) := by
  have h1 : strTake (seasonCode season ++ zfill 4 (Nat.repr n)) 2 = seasonCode season := by
    have h := strTake_append (seasonCode season) (zfill 4 (Nat.repr n))
    rwa [seasonCode_length] at h
  have h2 : strDrop (seasonCode season ++ zfill 4 (Nat.repr n)) 2 = zfill 4 (Nat.repr n) := by
    have h := strDrop_append (seasonCode season) (zfill 4 (Nat.repr n))
    rwa [seasonCode_length] at h
  unfold decode_report_id encode_report_id
  rw [h1, h2, seasonOfCode_seasonCode, pyInt_zfill_repr n (by omega)]

/-- Concrete instance of the C5 round-trip theorem. -/
theorem decode_encode_report_id_witness :
    decode_report_id (encode_report_id Season.regular 42) = some (Season.regular, (42 : Int)) :=
  decode_encode_report_id Season.regular 42 (by omega)

end HockeyAnalytics
